import Mathlib

/-!
Verification of the VAII document pipeline (src/main.py) against its
natural-language specification.

The Python source is shallowly embedded below.  Strings are modelled through
their character lists (`String.data`); Python's regular-expression searches are
modelled by explicit left-to-right scanners with the exact greedy semantics of
the patterns appearing in the source; monetary values are modelled as exact
rationals (the source uses Python floats over 2-decimal monetary data);
Python's case mappings are modelled over ASCII and the Latin-1 supplement,
which covers the character classes used by the source patterns.  Fallible code
is modelled with `Except`/`Option`.
-/

/-- Python `\s` whitespace class (ASCII part), as used by `re` in the source. -/
def pyIsSpace (c : Char) : Bool :=
  c = ' ' || c = '\t' || c = '\n' || c = '\r' || c.toNat = 11 || c.toNat = 12

/-- Python `str.strip()`: drop whitespace from both ends. -/
def pyStrip (l : List Char) : List Char :=
  ((l.dropWhile pyIsSpace).reverse.dropWhile pyIsSpace).reverse

/-- Latin-1 supplement block `À`..`ÿ` (code points 192-255), the `À-ÿ` regex range. -/
def isLatin1Sup (c : Char) : Bool :=
  decide (192 ≤ c.toNat ∧ c.toNat ≤ 255)

/-- Character class `[A-Za-zÀ-ÿ\s]` of the name pattern in `extrair_nome`. -/
def isNomeClass (c : Char) : Bool :=
  c.isAlpha || isLatin1Sup c || pyIsSpace c

/-- Letters for Python's case mappings: ASCII letters plus Latin-1 letters
(excluding `×` 215 and `÷` 247, which are not letters). -/
def isAlphaPy (c : Char) : Bool :=
  c.isAlpha || (isLatin1Sup c && decide (c.toNat ≠ 215) && decide (c.toNat ≠ 247))

/-- Python `str.lower()` on one character (ASCII and Latin-1 range). -/
def toLowerPy (c : Char) : Char :=
  if c.isUpper then Char.ofNat (c.toNat + 32)
  else if decide (192 ≤ c.toNat ∧ c.toNat ≤ 222 ∧ c.toNat ≠ 215) then Char.ofNat (c.toNat + 32)
  else c

/-- Python `str.upper()` on one character (ASCII and Latin-1 range). -/
def toUpperPy (c : Char) : Char :=
  if c.isLower then Char.ofNat (c.toNat - 32)
  else if decide (224 ≤ c.toNat ∧ c.toNat ≤ 254 ∧ c.toNat ≠ 247) then Char.ofNat (c.toNat - 32)
  else c

/-- Python `str.lower()`. -/
def pyLower (s : String) : String := String.mk (s.data.map toLowerPy)

/-- Worker for `pyTitle`: the boolean records whether the previous character was
a letter (Python capitalizes a letter exactly when the previous one is not). -/
def pyTitleGo : Bool → List Char → List Char
  | _, [] => []
  | prev, c :: t =>
    if isAlphaPy c then (if prev then toLowerPy c else toUpperPy c) :: pyTitleGo true t
    else c :: pyTitleGo false t

/-- Python `str.title()`, as used by `extrair_nome`. -/
def pyTitle (l : List Char) : List Char := pyTitleGo false l

/-- Digits of a string after Python `re.sub(r'\D', '', s)`, as numbers. -/
def digitsOf (s : String) : List Nat :=
  (s.data.filter Char.isDigit).map (fun c => c.toNat - 48)

/-- Match of `\d{3}\.\d{3}\.\d{3}-\d{2}` anchored at the head of the list
(the punctuated CPF pattern of `extrair_cpf`). -/
def matchPunctAt : List Char → Option (List Char)
  | a :: b :: c :: d :: e :: f :: g :: h :: i :: j :: k :: m :: n :: o :: _ =>
    if a.isDigit && b.isDigit && c.isDigit && decide (d = '.') &&
       e.isDigit && f.isDigit && g.isDigit && decide (h = '.') &&
       i.isDigit && j.isDigit && k.isDigit && decide (m = '-') &&
       n.isDigit && o.isDigit then
      some [a, b, c, d, e, f, g, h, i, j, k, m, n, o]
    else none
  | _ => none

/-- Leftmost match of the punctuated CPF pattern (`re.search` semantics). -/
def findPunct : List Char → Option (List Char)
  | [] => none
  | c :: t =>
    match matchPunctAt (c :: t) with
    | some r => some r
    | none => findPunct t

/-- Match of `\d{11}` anchored at the head of the list. -/
def matchBareAt (l : List Char) : Option (List Char) :=
  let ds := l.take 11
  if ds.length = 11 && ds.all Char.isDigit then some ds else none

/-- Leftmost match of `\d{11}` (`re.search` semantics). -/
def findBare11 : List Char → Option (List Char)
  | [] => none
  | c :: t =>
    match matchBareAt (c :: t) with
    | some r => some r
    | none => findBare11 t

/-- The f-string reformatting of 11 bare digits in `extrair_cpf`:
`ddd.ddd.ddd-dd`. -/
def formatCpf (ds : List Char) : String :=
  String.mk (ds.take 3 ++ ('.' :: ((ds.drop 3).take 3 ++
    ('.' :: ((ds.drop 6).take 3 ++ ('-' :: ds.drop 9))))))

/-- `extrair_cpf` (src/main.py lines 71-80): first the punctuated pattern,
then the bare 11-digit fallback, else the not-found sentinel. -/
def extrair_cpf (texto : String) : String :=
  match findPunct texto.data with
  | some m => String.mk m
  | none =>
    match findBare11 texto.data with
    | some ds => formatCpf ds
    | none => "Não encontrado"

/-- Match of `Nome:\s*([A-Za-zÀ-ÿ\s]+)` (IGNORECASE) anchored at the head,
returning the captured group.  The greedy `\s*` takes every whitespace
character; if the group would then be empty, the regex engine backtracks one
whitespace character into the group. -/
def matchNomeAt : List Char → Option (List Char)
  | a :: b :: c :: d :: e :: rest =>
    if toLowerPy a = 'n' ∧ toLowerPy b = 'o' ∧ toLowerPy c = 'm' ∧
       toLowerPy d = 'e' ∧ e = ':' then
      let ws := rest.takeWhile pyIsSpace
      let rest2 := rest.drop ws.length
      let run := rest2.takeWhile isNomeClass
      if run.length = 0 then
        (if ws.length = 0 then none else some [ws.getLastD ' '])
      else some run
    else none
  | _ => none

/-- Leftmost match position for the name pattern (`re.search` semantics). -/
def findNome : List Char → Option (List Char)
  | [] => none
  | c :: t =>
    match matchNomeAt (c :: t) with
    | some r => some r
    | none => findNome t

/-- `extrair_nome` (src/main.py lines 82-87): captured group, stripped and
title-cased, else the not-found sentinel. -/
def extrair_nome (texto : String) : String :=
  match findNome texto.data with
  | some run => String.mk (pyTitle (pyStrip run))
  | none => "Não encontrado"

/-- Match of `\d{3}\.\d{5}\.\d{2}-\d{1}` anchored at the head of the list. -/
def pisNumAt : List Char → Option (List Char)
  | a :: b :: c :: d :: e :: f :: g :: h :: i :: j :: k :: m :: n :: o :: _ =>
    if a.isDigit && b.isDigit && c.isDigit && decide (d = '.') &&
       e.isDigit && f.isDigit && g.isDigit && h.isDigit && i.isDigit &&
       decide (j = '.') && k.isDigit && m.isDigit && decide (n = '-') &&
       o.isDigit then
      some [a, b, c, d, e, f, g, h, i, j, k, m, n, o]
    else none
  | _ => none

/-- Match of `PIS\/PASEP[:\s]*\d{3}\.\d{5}\.\d{2}-\d{1}` anchored at the head;
the source's group 1 is the whole match. -/
def matchPisAt (l : List Char) : Option (List Char) :=
  if l.take 9 = ("PIS/PASEP").data then
    let rest := l.drop 9
    let sep := rest.takeWhile (fun c => decide (c = ':') || pyIsSpace c)
    let rest2 := rest.drop sep.length
    match pisNumAt rest2 with
    | some num => some (("PIS/PASEP").data ++ sep ++ num)
    | none => none
  else none

/-- Leftmost match for the PIS pattern (`re.search` semantics). -/
def findPis : List Char → Option (List Char)
  | [] => none
  | c :: t =>
    match matchPisAt (c :: t) with
    | some r => some r
    | none => findPis t

/-- `extrair_pis` (src/main.py lines 89-94). -/
def extrair_pis (texto : String) : String :=
  match findPis texto.data with
  | some m => String.mk m
  | none => "Não encontrado"

/-- Characters of the amount class `[\d.,]` in the contribution pattern. -/
def isNumCls (c : Char) : Bool :=
  c.isDigit || decide (c = '.') || decide (c = ',')

/-- Match of `(\d{4}-\d{2}):\s*([\d.,]+)` anchored at the head, returning both
groups and the rest of the text after the match.  `\s*` and `[\d.,]+` are
greedy and their classes are disjoint, so matching is deterministic. -/
def matchContribAt : List Char → Option ((String × String) × List Char)
  | y1 :: y2 :: y3 :: y4 :: h :: m1 :: m2 :: cl :: rest =>
    if y1.isDigit && y2.isDigit && y3.isDigit && y4.isDigit && decide (h = '-') &&
       m1.isDigit && m2.isDigit && decide (cl = ':') then
      let ws := rest.takeWhile pyIsSpace
      let rest2 := rest.drop ws.length
      let num := rest2.takeWhile isNumCls
      if num.length = 0 then none
      else some ((String.mk [y1, y2, y3, y4, h, m1, m2], String.mk num), rest2.drop num.length)
    else none
  | _ => none

/-- Fuelled scanner for `re.findall` over the contribution pattern: advance one
character on failure, continue after the match on success (non-overlapping
leftmost matches).  Each step consumes at least one character, so fuel equal to
the text length suffices. -/
def scanGo : Nat → List Char → List (String × String)
  | 0, _ => []
  | _, [] => []
  | fuel + 1, c :: t =>
    match matchContribAt (c :: t) with
    | some (g, rest) => g :: scanGo fuel rest
    | none => scanGo fuel t

/-- All non-overlapping matches of the contribution pattern, in text order. -/
def scanContribs (l : List Char) : List (String × String) := scanGo l.length l

/-- Value of a string of decimal digit characters. -/
def natOfDigits (l : List Char) : Nat :=
  l.foldl (fun n c => 10 * n + (c.toNat - 48)) 0

/-- `float(valor_str.replace('.', '').replace(',', '.'))` modelled as an exact
rational: dots stripped, commas turned into dots, then Python float-literal
parsing (at least one digit, at most one dot); the literal `ip.fp` with `k`
fractional digits denotes the rational `(ip * 10^k + fp) / 10^k`; `none`
models the `ValueError` the source catches. -/
def parseValor (s : String) : Option ℚ :=
  let t := (s.data.filter (fun c => decide (c ≠ '.'))).map (fun c => if c = ',' then '.' else c)
  if (t.all (fun c => c.isDigit || decide (c = '.'))) = false then none
  else if 2 ≤ (t.filter (fun c => decide (c = '.'))).length then none
  else if (t.filter Char.isDigit).length = 0 then none
  else
    let ip := t.takeWhile (fun c => decide (c ≠ '.'))
    let fp := (t.dropWhile (fun c => decide (c ≠ '.'))).drop 1
    some (mkRat (natOfDigits ip * 10 ^ fp.length + natOfDigits fp) (10 ^ fp.length))

/-- Python `max(a, b)`: the second argument only when the first is smaller. -/
def pyMax (a b : ℚ) : ℚ := if a < b then b else a

/-- Python `round(x, 2)` (round half to even at 2 decimal places), modelled
over exact rationals and computed on the numerator and denominator: `n` is
`⌊100 q⌋` (the denominator is positive, so flooring is euclidean division) and
`twice` compared with the denominator decides whether the fractional part
`100 q - n` is below, above or exactly one half. -/
def round2 (q : ℚ) : ℚ :=
  let n : ℤ := Int.ediv (100 * q.num) (q.den : ℤ)
  let twice : ℤ := 200 * q.num - 2 * n * (q.den : ℤ)
  if twice < (q.den : ℤ) then mkRat n 100
  else if (q.den : ℤ) < twice then mkRat (n + 1) 100
  else if n % 2 = 0 then mkRat n 100 else mkRat (n + 1) 100

/-- Python dict insertion `d[k] = v`: overwrite in place if the key exists,
else append; dict order and key distinctness are preserved. -/
def dictInsert (m : List (String × ℚ)) (k : String) (v : ℚ) : List (String × ℚ) :=
  if m.any (fun p => decide (p.1 = k)) then m.map (fun p => if p.1 = k then (k, v) else p)
  else m ++ [(k, v)]

/-- `extrair_contribuicoes` (src/main.py lines 96-107): every match whose
amount parses becomes an entry (rounded to 2 places); a match whose amount
fails to parse is skipped and the loop continues. -/
def extrair_contribuicoes (texto : String) : List (String × ℚ) :=
  (scanContribs texto.data).foldl
    (fun m g =>
      match parseValor g.2 with
      | some v => dictInsert m g.1 (round2 v)
      | none => m)
    []

/-- Weighted sum with a decreasing initial weight, the loop body of
`calcular_digito` in `validar_cpf`. -/
def wsum : List Nat → Nat → Nat
  | [], _ => 0
  | d :: t, p => d * p + wsum t (p - 1)

/-- Inner `calcular_digito` of `validar_cpf` (src/main.py lines 116-122):
weighted sum modulo 11; digit is 0 when the remainder is below 2, else 11
minus the remainder. -/
def calcular_digito (ds : List Nat) (peso_inicial : Nat) : Nat :=
  let resto := wsum ds peso_inicial % 11
  if resto < 2 then 0 else 11 - resto

/-- Core of `validar_cpf` over the stripped digit list: reject when the digit
count differs from 11 or all digits are identical (`cpf == cpf[0] * 11`), else
compare the last two digits with the two computed check digits. -/
def validar_core (ds : List Nat) : Bool :=
  if ds.length ≠ 11 then false
  else if ds = List.replicate 11 (ds.headD 0) then false
  else
    let digito1 := calcular_digito (ds.take 9) 10
    let digito2 := calcular_digito (ds.take 9 ++ [digito1]) 11
    decide (ds.drop 9 = [digito1, digito2])

/-- `validar_cpf` (src/main.py lines 112-125). -/
def validar_cpf (cpf : String) : Bool := validar_core (digitsOf cpf)

/-- The claim's phrase "the 11 digits are all identical". -/
def allIdentical (ds : List Nat) : Bool := ds.all (fun d => decide (d = ds.headD 0))

/-- Check digit as the claim words it: weighted sum of the digits against an
explicit list of weights, modulo 11, with the same below-2 rule. -/
def zipDigit (ds ws : List Nat) : Nat :=
  let resto := (List.zipWith (fun a b => a * b) ds ws).sum % 11
  if resto < 2 then 0 else 11 - resto

/-- Tax-ID validation exactly as claim C3 words it: strip non-digits, reject
all-identical digits or FEWER than 11 digits, otherwise compare the input's
last two digits with the two computed check digits (weights 10..2 and 11..2). -/
def validar_cpf_claim (s : String) : Bool :=
  let ds := digitsOf s
  if ds.length < 11 then false
  else if allIdentical ds then false
  else
    let d1 := zipDigit (ds.take 9) [10, 9, 8, 7, 6, 5, 4, 3, 2]
    let d2 := zipDigit (ds.take 9 ++ [d1]) [11, 10, 9, 8, 7, 6, 5, 4, 3, 2]
    decide (ds.drop (ds.length - 2) = [d1, d2])

/-- Core of claim C3 amended at its one false point, over the stripped digit
list: a digit count DIFFERENT from 11 is rejected (the source rejects more
than 11 digits as well as fewer); the rest is the claim's wording unchanged. -/
def validar_core_amended (ds : List Nat) : Bool :=
  if ds.length ≠ 11 then false
  else if allIdentical ds then false
  else
    let d1 := zipDigit (ds.take 9) [10, 9, 8, 7, 6, 5, 4, 3, 2]
    let d2 := zipDigit (ds.take 9 ++ [d1]) [11, 10, 9, 8, 7, 6, 5, 4, 3, 2]
    decide (ds.drop (ds.length - 2) = [d1, d2])

/-- Claim C3 amended: strip non-digits, then `validar_core_amended`. -/
def validar_cpf_amended (s : String) : Bool :=
  validar_core_amended (digitsOf s)

/-- Python string comparison on character lists (lexicographic by code point). -/
def pyStrLtCh : List Char → List Char → Bool
  | [], [] => false
  | [], _ :: _ => true
  | _ :: _, [] => false
  | a :: s, b :: t =>
    if a.toNat < b.toNat then true
    else if b.toNat < a.toNat then false
    else pyStrLtCh s t

/-- Python `<` on strings. -/
def pyStrLt (a b : String) : Bool := pyStrLtCh a.data b.data

/-- Insertion into a descending-sorted list (for Python
`sorted(keys, reverse=True)`). -/
def insertDesc (s : String) : List String → List String
  | [] => [s]
  | t :: ts => if pyStrLt t s then s :: t :: ts else t :: insertDesc s ts

/-- Python `sorted(keys, reverse=True)`. -/
def sortDesc (l : List String) : List String := l.foldr insertDesc []

/-- `calcular_beneficio` (src/main.py lines 130-138) as the source actually
behaves: for an empty mapping it returns `None`; for a non-empty mapping it
computes `datas` and then the list comprehension
`[contribuicoes[data] for data in datas if data in contribs]` evaluates the
name `contribs`, which is bound nowhere in scope, so a `NameError` is raised
(modelled as `Except.error ()`). -/
def calcular_beneficio (contribuicoes : List (String × ℚ)) (salario_min : ℚ) :
    Except Unit (Option ℚ) :=
  if contribuicoes.length = 0 then Except.ok none
  else
    let _datas := (sortDesc (contribuicoes.map Prod.fst)).take 12
    let _salario := salario_min
    Except.error ()

/-- Lookup in the contribution mapping (`data in contribuicoes` /
`contribuicoes[data]`). -/
def lookupVal (m : List (String × ℚ)) (k : String) : Option ℚ :=
  (m.find? (fun p => decide (p.1 = k))).map Prod.snd

/-- Modelled from the spec: the intended `calcular_beneficio` (design §4.5),
which the source misses by referencing the undefined name `contribs`; the spec
defines the intent as "use the newly merged contribution mapping directly":
take up to the 12 most recent keys in descending order, average the amounts of
the keys present in the mapping, and return `max(mean, salario_min)` rounded
to 2 places. -/
def calcular_beneficio_spec (contribuicoes : List (String × ℚ)) (salario_min : ℚ) :
    Option ℚ :=
  if contribuicoes.length = 0 then none
  else
    let datas := (sortDesc (contribuicoes.map Prod.fst)).take 12
    let valores := datas.filterMap (fun d => lookupVal contribuicoes d)
    if valores.length = 0 then none
    else some (round2 (pyMax (valores.sum / (valores.length : ℚ)) salario_min))

/-- The five document form fields, in the fixed processing order of
`processar_documentos`. -/
inductive Campo where
  | rg
  | certidao
  | cnis
  | pis
  | mei
deriving DecidableEq, Repr

/-- The string key of a form field. -/
def campoUpperStr : Campo → String
  | .rg => "RG"
  | .certidao => "CERTIDAO"
  | .cnis => "CNIS"
  | .pis => "PIS"
  | .mei => "MEI"

/-- One submitted document.  `texto` is the text the external PDF extraction
collaborator yields for it (out of scope per the design, so taken as input);
`size_ok` is the external file-size check of the quality gate. -/
structure Doc where
  filename : String
  texto : String
  size_ok : Bool
deriving DecidableEq, Repr

/-- One submission: at most one document per form field, as in
`form_files.get(campo)`. -/
structure Submission where
  rg : Option Doc
  certidao : Option Doc
  cnis : Option Doc
  pis : Option Doc
  mei : Option Doc
deriving DecidableEq, Repr

/-- `form_files.get(campo)`. -/
def subGet (sub : Submission) : Campo → Option Doc
  | .rg => sub.rg
  | .certidao => sub.certidao
  | .cnis => sub.cnis
  | .pis => sub.pis
  | .mei => sub.mei

/-- `os.path.splitext(path)[1]`: the extension of the basename, where leading
dots of the basename do not start an extension. -/
def pyExt (path : String) : String :=
  let base := (path.data.reverse.takeWhile (fun c => decide (c ≠ '/'))).reverse
  let pre := base.dropWhile (fun c => decide (c = '.'))
  let rev := pre.reverse
  let afterDot := rev.takeWhile (fun c => decide (c ≠ '.'))
  if afterDot.length < pre.length then String.mk ('.' :: afterDot.reverse) else ""

/-- `extrair_texto` (src/main.py lines 39-44): PDF text comes from the external
extractor (the `texto` field); any other extension yields a fixed message. -/
def extrair_texto (d : Doc) : String :=
  if pyLower (pyExt ("temp/" ++ d.filename)) = ".pdf" then d.texto
  else "Formato não suportado. Envie um PDF."

/-- `validar_arquivo` (src/main.py lines 49-58) as a boolean verdict: size
within the 5 MB limit (external), extension `.pdf`, and at least 50 characters
of stripped extracted text. -/
def validar_arquivo (d : Doc) : Bool :=
  d.size_ok && decide (pyLower (pyExt ("temp/" ++ d.filename)) = ".pdf") &&
    decide (50 ≤ (pyStrip (extrair_texto d).data).length)

/-- `verificar_qualidade_texto` (src/main.py lines 63-66) with the default
threshold 50. -/
def verificar_qualidade_texto (texto : String) : String :=
  if (pyStrip texto.data).length < 50 then
    "Baixa qualidade: texto insuficiente para análise."
  else "OK"

/-- ASCII letters and digits, the characters `re.sub(r'[^a-zA-Z0-9]', '', s)`
keeps. -/
def isAsciiAlnum (c : Char) : Bool := c.isAlpha || c.isDigit

/-- `renomear_arquivo` (src/main.py lines 191-202).  The `os.rename` call is an
external side effect whose success (`_renameOk`) is caught and logged; the
function returns the computed new path either way, which is the only thing the
report consumes. -/
def renomear_arquivo (_renameOk : Bool) (caminho cpf nome tipo_doc : String) : String :=
  let extensao := pyExt caminho
  let cpf_limpo := String.mk (cpf.data.filter Char.isDigit)
  let nome_limpo := String.mk ((((pyLower nome).data.filter isAsciiAlnum).take 20))
  let novo_nome := cpf_limpo ++ "_" ++ nome_limpo ++ "_" ++ pyLower tipo_doc ++ extensao
  "temp" ++ "/" ++ novo_nome

/-- `caminho.split(os.sep)[-1]`: the basename recorded in the report. -/
def basenameOf (path : String) : String :=
  String.mk ((path.data.reverse.takeWhile (fun c => decide (c ≠ '/'))).reverse)

/-- The per-document entry of `documentos_processados` (`info_doc`). -/
structure InfoDoc where
  tipo : String
  arquivo_original : String
  qualidade : String
  nome : Option String := none
  cpf : Option String := none
  cpf_valido : Option Bool := none
  contribuicoes : Option (List (String × ℚ)) := none
  pis : Option String := none
  mei : Option String := none
  arquivo_renomeado : Option String := none
deriving DecidableEq, Repr

/-- The eligibility sub-record built by `verificar_elegibilidade`. -/
structure Elegibilidade where
  pagou_12_meses : Bool
  qualidade_segurada : Bool
  dentro_prazo : Bool
  mensagem : String
deriving DecidableEq, Repr

/-- The `dados_aggregados` dictionary.  A field is `none` when the key is
absent.  The keys `rg`, `certidao`, `cnis` and `elegibilidade` are read by
`verificar_documentos_obrigatorios` / `calcular_aprovacao` but are never
written by `processar_documentos`, so in the pipeline they stay `none`. -/
structure Dados where
  nome : Option String := none
  cpf : Option String := none
  cpf_valido : Option Bool := none
  contribuicoes : Option (List (String × ℚ)) := none
  pis : Option String := none
  mei : Option String := none
  ocupacao : Option String := none
  beneficio : Option ℚ := none
  documentos : List InfoDoc := []
  inconsistencia_nomes : Option String := none
  rg : Option String := none
  certidao : Option String := none
  cnis : Option String := none
  elegibilidade : Option Elegibilidade := none
deriving DecidableEq, Repr

/-- Python truthiness of an optional string (`None` and `""` are falsy). -/
def pyTruthy : Option String → Bool
  | none => false
  | some s => decide (s ≠ "")

/-- `dados.get(doc)` for the five document keys inspected by
`verificar_documentos_obrigatorios`. -/
def dadosGet (dados : Dados) : String → Option String
  | "rg" => dados.rg
  | "certidao" => dados.certidao
  | "cnis" => dados.cnis
  | "pis" => dados.pis
  | "mei" => dados.mei
  | _ => none

/-- `verificar_elegibilidade` (src/main.py lines 143-154). -/
def verificar_elegibilidade (dados : Dados) : Elegibilidade :=
  let contribs := dados.contribuicoes.getD []
  let pagou_12 := decide (12 ≤ contribs.length)
  { pagou_12_meses := pagou_12
    qualidade_segurada := true
    dentro_prazo := true
    mensagem :=
      if pagou_12 then "A cliente está apta a prosseguir."
      else "A cliente não está apta a prosseguir. É necessário ter contribuído por 12 meses." }

/-- `verificar_documentos_obrigatorios` (src/main.py lines 156-162): the four
base keys, plus `mei` when the recorded occupation is `MEI`; a key is missing
when its `dados` entry is falsy. -/
def verificar_documentos_obrigatorios (dados : Dados) : List String :=
  let obrigatorios := ["rg", "certidao", "cnis", "pis"] ++
    (if dados.ocupacao.getD "" = "MEI" then ["mei"] else [])
  (obrigatorios.filter (fun d => !pyTruthy (dadosGet dados d))).map
    (fun d => String.mk (d.data.map toUpperPy))

/-- Truthiness of `dados.get("elegibilidade", {}).get("pagou_12_meses")`. -/
def pagou12Truthy (dados : Dados) : Bool :=
  match dados.elegibilidade with
  | some e => e.pagou_12_meses
  | none => false

/-- `calcular_aprovacao` (src/main.py lines 167-186): the running score and the
threshold mapping, exactly in source order. -/
def calcular_aprovacao (dados : Dados) (ocupacao : String) : String :=
  let score0 : ℚ := 0
  let score1 := if pagou12Truthy dados then score0 + 2 else score0
  let score2 := if dados.cpf_valido.getD false then score1 + 1 else score1
  let score3 := if verificar_documentos_obrigatorios dados = [] then score2 + 1 else score2
  let score4 :=
    if ocupacao = "CLT" then score3 + 1
    else if ocupacao = "MEI" ∨ ocupacao = "Autônoma" ∨ ocupacao = "Desempregada" then
      score3 + 1 / 2
    else score3
  if score4 < 2 then "Benefício Improvável"
  else if score4 < 3 then "Pouco provável"
  else if score4 < 4 then "Provável"
  else "Muito provável"

/-- The final report dictionary built by `gerar_relatorio`. -/
structure Relatorio where
  rg : Option String
  certidao : Option String
  cnis : Option String
  pis : Option String
  mei : Option String
  nome : Option String
  cpf : Option String
  cpf_valido : Option Bool
  beneficio_estimado : Option ℚ
  elegibilidade : Elegibilidade
  documentos_processados : List InfoDoc
  informacoes_incompletas : List String
  ocupacao : Option String
  aprovacao : String
deriving DecidableEq, Repr

/-- `gerar_relatorio` (src/main.py lines 207-224). -/
def gerar_relatorio (dados : Dados) : Relatorio :=
  { rg := dados.rg
    certidao := dados.certidao
    cnis := dados.cnis
    pis := dados.pis
    mei := dados.mei
    nome := dados.nome
    cpf := dados.cpf
    cpf_valido := dados.cpf_valido
    beneficio_estimado := dados.beneficio
    elegibilidade := verificar_elegibilidade dados
    documentos_processados := dados.documentos
    informacoes_incompletas := verificar_documentos_obrigatorios dados
    ocupacao := dados.ocupacao
    aprovacao := calcular_aprovacao dados (dados.ocupacao.getD "") }

/-- `dict.update`: fold the new entries into the existing mapping. -/
def dictUpdate (m novo : List (String × ℚ)) : List (String × ℚ) :=
  novo.foldl (fun acc p => dictInsert acc p.1 p.2) m

/-- One iteration of the `processar_documentos` loop for one form field:
skip absent or invalid files, extract the fields relevant to the declared
type, fold them into `dados_aggregados`, and append the per-document entry. -/
def processCampo (sub : Submission) (fs : Campo → Bool) (acc : Dados × List InfoDoc)
    (campo : Campo) : Dados × List InfoDoc :=
  match subGet sub campo with
  | none => acc
  | some doc =>
    if !validar_arquivo doc then acc
    else
      let texto := extrair_texto doc
      let qualidade := verificar_qualidade_texto texto
      let dados := acc.1
      let base : InfoDoc :=
        { tipo := campoUpperStr campo, arquivo_original := doc.filename, qualidade := qualidade }
      let passo : Dados × InfoDoc :=
        match campo with
        | .rg | .certidao =>
          let nome := extrair_nome texto
          let cpf := extrair_cpf texto
          let info := { base with nome := some nome, cpf := some cpf }
          if cpf ≠ "" then
            let valido := validar_cpf cpf
            ({ dados with nome := some nome, cpf := some cpf, cpf_valido := some valido },
             { info with cpf_valido := some valido })
          else ({ dados with nome := some nome }, info)
        | .cnis =>
          let contribs := extrair_contribuicoes texto
          ({ dados with contribuicoes := some (dictUpdate (dados.contribuicoes.getD []) contribs) },
           { base with contribuicoes := some contribs })
        | .pis =>
          let p := extrair_pis texto
          ({ dados with pis := some p }, { base with pis := some p })
        | .mei =>
          ({ dados with mei := some "Enviado" }, { base with mei := some "Enviado" })
      let dados1 := passo.1
      let info1 := passo.2
      let info2 :=
        if pyTruthy dados1.cpf && pyTruthy dados1.nome then
          { info1 with arquivo_renomeado := some (basenameOf
              (renomear_arquivo (fs campo) ("temp/" ++ doc.filename)
                (dados1.cpf.getD "") (dados1.nome.getD "") (campoUpperStr campo))) }
        else info1
      (dados1, acc.2 ++ [info2])

/-- The name-consistency block of `processar_documentos` (src/main.py lines
278-282): lower-case every non-empty, non-sentinel extracted name; more than
one distinct value means inconsistency. -/
def calcInconsistencia (docs : List InfoDoc) : String :=
  let nomes := docs.filterMap (fun d =>
    match d.nome with
    | some n => if n ≠ "" ∧ n ≠ "Não encontrado" then some (pyLower n) else none
    | none => none)
  if nomes ≠ [] ∧ 1 < nomes.dedup.length then
    "Inconsistência nos nomes extraídos. Verifique manualmente."
  else "OK"

/-- The last assignments of `processar_documentos`: estimated benefit,
processed-documents list and name-consistency flag. -/
def finalizeDados (dados : Dados) (b : Option ℚ) (docs : List InfoDoc) : Dados :=
  { dados with
      beneficio := b, documentos := docs,
      inconsistencia_nomes := some (calcInconsistencia docs) }

/-- `processar_documentos` up to (but not including) `gerar_relatorio`
(src/main.py lines 229-284): the document fold, the occupation, the benefit
computation (which propagates the `NameError` of `calcular_beneficio` whenever
a non-empty contribution mapping was extracted) and the name-consistency flag.
`fs` gives the external `os.rename` outcome per field. -/
def montar_dados (sub : Submission) (ocupacao : String) (fs : Campo → Bool) :
    Except Unit Dados :=
  let par := [Campo.rg, Campo.certidao, Campo.cnis, Campo.pis, Campo.mei].foldl
    (processCampo sub fs) ({}, [])
  let dados1 : Dados := { par.1 with ocupacao := some ocupacao }
  match dados1.contribuicoes with
  | some c =>
    match calcular_beneficio c 1412 with
    | Except.error e => Except.error e
    | Except.ok b => Except.ok (finalizeDados dados1 b par.2)
  | none => Except.ok (finalizeDados dados1 none par.2)

/-- `processar_documentos` (src/main.py lines 229-284), ending in
`gerar_relatorio`. -/
def processar_documentos (sub : Submission) (ocupacao : String) (fs : Campo → Bool) :
    Except Unit Relatorio :=
  (montar_dados sub ocupacao fs).map gerar_relatorio

/-- The threshold mapping exactly as claim C2 words it: score < 2 Unlikely,
< 3 Slightly-Unlikely, < 4 Likely, else Very-Likely (half-open boundaries). -/
def tierClaim (s : ℚ) : String :=
  if s < 2 then "Benefício Improvável"
  else if s < 3 then "Pouco provável"
  else if s < 4 then "Provável"
  else "Muito provável"

/-- The score exactly as claim C2 words it: the sum of the five indicator
terms. -/
def scoreClaim (dados : Dados) (ocupacao : String) : ℚ :=
  (if pagou12Truthy dados then 2 else 0) +
  (if dados.cpf_valido.getD false then 1 else 0) +
  (if verificar_documentos_obrigatorios dados = [] then 1 else 0) +
  (if ocupacao = "CLT" then 1 else 0) +
  (if ocupacao = "MEI" ∨ ocupacao = "Autônoma" ∨ ocupacao = "Desempregada" then 1 / 2 else 0)

/-- The candidate names of claim C8: every extracted name that is non-empty
and not the sentinel, lower-cased. -/
def nomesFiltrados (docs : List InfoDoc) : List String :=
  docs.filterMap (fun d =>
    match d.nome with
    | some n => if n ≠ "" ∧ n ≠ "Não encontrado" then some (pyLower n) else none
    | none => none)

/-- The entries of claim C6: one per pattern occurrence whose amount parses,
rounded to 2 places. -/
def parsedEntries (ms : List (String × String)) : List (String × ℚ) :=
  ms.filterMap (fun g => (parseValor g.2).map (fun v => (g.1, round2 v)))

/-- Decreasing weight list `p, p-1, ...` of length `n`, the claim's explicit
"weights 10 down to 2" / "11 down to 2" form. -/
def weightsDown : Nat → Nat → List Nat
  | _, 0 => []
  | p, n + 1 => p :: weightsDown (p - 1) n

/-- Twelve distinct year-month keys. -/
def mesesDoze : List String :=
  ["2023-01", "2023-02", "2023-03", "2023-04", "2023-05", "2023-06",
   "2023-07", "2023-08", "2023-09", "2023-10", "2023-11", "2023-12"]

/-- Twelve distinct months, each with the same amount. -/
def contribsDoze (v : ℚ) : List (String × ℚ) := mesesDoze.map (fun m => (m, v))

/-- An identity document whose text yields the name `Maria Silva` and the
valid tax ID `111.444.777-35`. -/
def docRg : Doc :=
  { filename := "rg.pdf",
    texto := "Nome: Maria Silva\n111.444.777-35 documento de identidade para analise e verificacao de dados",
    size_ok := true }

/-- A birth-certificate document whose text yields a name but no tax ID. -/
def docCertidao : Doc :=
  { filename := "certidao.pdf",
    texto := "Nome: Maria Silva\ncertidao de nascimento do filho registrada em cartorio municipal",
    size_ok := true }

/-- A contribution statement with no month-amount entries. -/
def docCnis : Doc :=
  { filename := "cnis.pdf",
    texto := "extrato do cnis sem registros de contribuicoes para o periodo analisado neste documento",
    size_ok := true }

/-- A social-insurance-card document. -/
def docPis : Doc :=
  { filename := "pis.pdf",
    texto := "documento pis pasep da requerente para fins de cadastro e verificacao de dados pessoais",
    size_ok := true }

/-- Claim C4's failing submission: the identity document yields a valid tax
ID, the later birth certificate yields none. -/
def subC4 : Submission :=
  { rg := some docRg, certidao := some docCertidao, cnis := none, pis := none, mei := none }

/-- Claim C5's failing submission: all four required documents supplied. -/
def subC5 : Submission :=
  { rg := some docRg, certidao := some docCertidao, cnis := some docCnis,
    pis := some docPis, mei := none }

/-- The empty submission. -/
def subVazia : Submission :=
  { rg := none, certidao := none, cnis := none, pis := none, mei := none }

/-- The aggregate the pipeline builds for the empty submission. -/
def dadosVazio : Dados :=
  { ocupacao := some "CLT", beneficio := none, documentos := [],
    inconsistencia_nomes := some "OK" }

/-- A processed identity document carrying the name `Maria Silva`. -/
def infoMariaRg : InfoDoc :=
  { tipo := "RG", arquivo_original := "rg.pdf", qualidade := "OK", nome := some "Maria Silva" }

/-- A processed certificate carrying the name `maria silva`. -/
def infoMariaCert : InfoDoc :=
  { tipo := "CERTIDAO", arquivo_original := "certidao.pdf", qualidade := "OK",
    nome := some "maria silva" }

/-- A processed certificate carrying the name `Ana Souza`. -/
def infoAna : InfoDoc :=
  { tipo := "CERTIDAO", arquivo_original := "certidao.pdf", qualidade := "OK",
    nome := some "Ana Souza" }

/-- A record meeting every scoring criterion (threshold met, valid tax ID, no
missing documents), spec scenario for score 5. -/
def dadosAltos : Dados :=
  { cpf_valido := some true,
    rg := some "x", certidao := some "x", cnis := some "x", pis := some "x",
    ocupacao := some "CLT",
    elegibilidade := some
      { pagou_12_meses := true, qualidade_segurada := true, dentro_prazo := true,
        mensagem := "A cliente está apta a prosseguir." } }

/-- The same record with occupation `Desempregada`, spec scenario for
score 4.5. -/
def dadosAltosD : Dados :=
  { dadosAltos with ocupacao := some "Desempregada" }

/-- The all-false record, spec scenario for score 0. -/
def dadosZero : Dados := {}

/-- A record where only the contribution threshold is met, giving score
exactly 2. -/
def dadosSo12 : Dados :=
  { elegibilidade := some
      { pagou_12_meses := true, qualidade_segurada := true, dentro_prazo := true,
        mensagem := "A cliente está apta a prosseguir." } }

set_option maxRecDepth 8000

theorem wsum_eq_zip (l : List Nat) (p : Nat) :
    wsum l p = (List.zipWith (fun a b => a * b) l (weightsDown p l.length)).sum := by
  induction l generalizing p with
  | nil => simp [wsum, weightsDown]
  | cons d t ih => simp [wsum, weightsDown, ih]

theorem calcular_digito_eq_zip9 (l : List Nat) (h : l.length = 9) :
    calcular_digito l 10 = zipDigit l [10, 9, 8, 7, 6, 5, 4, 3, 2] := by
  simp [calcular_digito, zipDigit, wsum_eq_zip, h, weightsDown]

theorem calcular_digito_eq_zip10 (l : List Nat) (h : l.length = 10) :
    calcular_digito l 11 = zipDigit l [11, 10, 9, 8, 7, 6, 5, 4, 3, 2] := by
  simp [calcular_digito, zipDigit, wsum_eq_zip, h, weightsDown]

theorem replicate_iff_allIdentical (ds : List Nat) (h : ds.length = 11) :
    (ds = List.replicate 11 (ds.headD 0)) ↔ allIdentical ds = true := by
  rw [allIdentical, List.all_eq_true]
  constructor
  · intro he d hd
    rw [decide_eq_true_iff]
    exact List.eq_of_mem_replicate (he ▸ hd)
  · intro hall
    rw [List.eq_replicate_iff]
    exact ⟨h, fun b hb => by simpa using hall b hb⟩

theorem core_eq_amended (ds : List Nat) : validar_core ds = validar_core_amended ds := by
  by_cases h : ds.length = 11
  · have h9 : (ds.take 9).length = 9 := by simp [List.length_take, h]
    have h10 : (ds.take 9 ++ [calcular_digito (ds.take 9) 10]).length = 10 := by simp [h9]
    have e1 : calcular_digito (ds.take 9) 10 = zipDigit (ds.take 9) [10, 9, 8, 7, 6, 5, 4, 3, 2] :=
      calcular_digito_eq_zip9 _ h9
    have e2 := calcular_digito_eq_zip10 _ h10
    have hdrop : ds.length - 2 = 9 := by omega
    rw [validar_core, validar_core_amended,
      if_neg (by omega : ¬(ds.length ≠ 11)), if_neg (by omega : ¬(ds.length ≠ 11))]
    by_cases hid : allIdentical ds
    · rw [if_pos ((replicate_iff_allIdentical ds h).mpr hid), if_pos hid]
    · rw [if_neg (fun hc => hid ((replicate_iff_allIdentical ds h).mp hc)), if_neg hid]
      rw [e1] at e2
      simp only [hdrop, e1, e2]
  · rw [validar_core, validar_core_amended, if_pos h, if_pos h]

theorem flip9 (a0 a1 a2 a3 a4 a5 a6 a7 a8 a9 a10 x : Nat)
    (h : validar_core [a0, a1, a2, a3, a4, a5, a6, a7, a8, a9, a10] = true) (hx : x ≠ a9) :
    validar_core [a0, a1, a2, a3, a4, a5, a6, a7, a8, x, a10] = false := by
  simp only [validar_core] at h ⊢
  norm_num at h ⊢
  rcases h with ⟨hrep, h1, h2⟩
  intro _ hx1
  exact absurd (hx1.trans h1.symm) hx

theorem flip10 (a0 a1 a2 a3 a4 a5 a6 a7 a8 a9 a10 x : Nat)
    (h : validar_core [a0, a1, a2, a3, a4, a5, a6, a7, a8, a9, a10] = true) (hx : x ≠ a10) :
    validar_core [a0, a1, a2, a3, a4, a5, a6, a7, a8, a9, x] = false := by
  simp only [validar_core] at h ⊢
  norm_num at h ⊢
  rcases h with ⟨hrep, h1, h2⟩
  intro _ _ hx2
  exact hx (hx2.trans h2.symm)

set_option maxHeartbeats 1000000 in
theorem aprovacao_eq_tier : ∀ (dados : Dados) (ocupacao : String),
    calcular_aprovacao dados ocupacao = tierClaim (scoreClaim dados ocupacao) := by
  intro d oc
  by_cases hD : oc = "CLT"
  · subst hD
    have hE : ¬(("CLT" : String) = "MEI" ∨ ("CLT" : String) = "Autônoma" ∨
        ("CLT" : String) = "Desempregada") := by decide
    by_cases hA : pagou12Truthy d <;> by_cases hB : d.cpf_valido.getD false <;>
      by_cases hC : verificar_documentos_obrigatorios d = [] <;>
      simp only [calcular_aprovacao, scoreClaim, tierClaim, hA, hB, hC, hE,
        if_true, if_false] <;> norm_num
  · by_cases hE : (oc = "MEI" ∨ oc = "Autônoma" ∨ oc = "Desempregada") <;>
      by_cases hA : pagou12Truthy d <;> by_cases hB : d.cpf_valido.getD false <;>
      by_cases hC : verificar_documentos_obrigatorios d = [] <;>
      simp only [calcular_aprovacao, scoreClaim, tierClaim, hA, hB, hC, hD, hE,
        if_true, if_false] <;> norm_num

theorem fold_skip_eq (ms : List (String × String)) (acc : List (String × ℚ)) :
    ms.foldl
      (fun m g =>
        match parseValor g.2 with
        | some v => dictInsert m g.1 (round2 v)
        | none => m) acc =
    (parsedEntries ms).foldl (fun m p => dictInsert m p.1 p.2) acc := by
  induction ms generalizing acc with
  | nil => simp [parsedEntries]
  | cons g t ih =>
    rcases hp : parseValor g.2 with _ | v <;>
      simp [parsedEntries, List.filterMap_cons, hp, ih]

theorem parseValor_nonneg (s : String) (v : ℚ) (h : parseValor s = some v) : 0 ≤ v := by
  rw [parseValor] at h
  split_ifs at h with h1 h2 h3
  all_goals
    first
      | exact Option.noConfusion h
      | (rw [Option.some_inj] at h
         rw [← h, Rat.mkRat_eq_div]
         positivity)

theorem round2_nonneg (q : ℚ) (h : 0 ≤ q) : 0 ≤ round2 q := by
  rw [round2]
  have hden : (0 : ℤ) < (q.den : ℤ) := by exact_mod_cast q.den_pos
  have hnum : 0 ≤ q.num := Rat.num_nonneg.mpr h
  have hn : 0 ≤ Int.ediv (100 * q.num) (q.den : ℤ) :=
    Int.ediv_nonneg (by positivity) (le_of_lt hden)
  split_ifs <;> rw [Rat.mkRat_eq_div] <;> positivity

theorem dictInsert_nonneg (m : List (String × ℚ)) (k : String) (v : ℚ)
    (hm : m.all (fun p => decide (0 ≤ p.2)) = true) (hv : 0 ≤ v) :
    (dictInsert m k v).all (fun p => decide (0 ≤ p.2)) = true := by
  rw [dictInsert]
  split_ifs with hk
  · rw [List.all_eq_true] at hm ⊢
    intro p hp
    rw [List.mem_map] at hp
    obtain ⟨q, hq, rfl⟩ := hp
    by_cases he : q.1 = k
    · simpa [he] using hv
    · simpa [he] using hm q hq
  · rw [List.all_append, hm]
    simpa using hv

theorem fold_nonneg (ms : List (String × String)) (acc : List (String × ℚ))
    (hacc : acc.all (fun p => decide (0 ≤ p.2)) = true) :
    (ms.foldl
      (fun m g =>
        match parseValor g.2 with
        | some v => dictInsert m g.1 (round2 v)
        | none => m) acc).all (fun p => decide (0 ≤ p.2)) = true := by
  induction ms generalizing acc with
  | nil => exact hacc
  | cons g t ih =>
    rcases hp : parseValor g.2 with _ | v
    · simpa [hp] using ih acc hacc
    · simpa [hp] using
        ih _ (dictInsert_nonneg _ _ _ hacc (round2_nonneg v (parseValor_nonneg _ _ hp)))

theorem extrair_contribuicoes_nonneg (t : String) :
    (extrair_contribuicoes t).all (fun p => decide (0 ≤ p.2)) = true := by
  rw [extrair_contribuicoes]
  exact fold_nonneg _ _ rfl

theorem extrair_cpf_punct (t : String) (m : List Char) (h : findPunct t.data = some m) :
    extrair_cpf t = String.mk m := by
  simp [extrair_cpf, h]

theorem extrair_cpf_bare (t : String) (ds : List Char) (h1 : findPunct t.data = none)
    (h2 : findBare11 t.data = some ds) : extrair_cpf t = formatCpf ds := by
  simp [extrair_cpf, h1, h2]

theorem extrair_cpf_sentinel (t : String) (h1 : findPunct t.data = none)
    (h2 : findBare11 t.data = none) : extrair_cpf t = "Não encontrado" := by
  simp [extrair_cpf, h1, h2]

theorem inconsistencia_iff (docs : List InfoDoc) :
    calcInconsistencia docs = "OK" ↔ (nomesFiltrados docs).dedup.length ≤ 1 := by
  show (if nomesFiltrados docs ≠ [] ∧ 1 < (nomesFiltrados docs).dedup.length then
      "Inconsistência nos nomes extraídos. Verifique manualmente." else "OK") = "OK" ↔ _
  by_cases h1 : nomesFiltrados docs = []
  · simp [h1]
  · by_cases h2 : 1 < (nomesFiltrados docs).dedup.length
    · rw [if_pos ⟨h1, h2⟩]
      constructor
      · intro hq
        exact absurd hq (by decide)
      · intro hq
        omega
    · rw [if_neg (fun hc => h2 hc.2)]
      simp
      omega

theorem montar_inconsistencia (sub : Submission) (oc : String) (fs : Campo → Bool) (d : Dados)
    (h : (montar_dados sub oc fs).toOption = some d) :
    d.inconsistencia_nomes = some (calcInconsistencia d.documentos) := by
  rw [montar_dados] at h
  split at h
  · split at h
    · simp [Except.toOption] at h
    · simp [Except.toOption] at h
      subst h
      simp [finalizeDados]
  · simp [Except.toOption] at h
    subst h
    simp [finalizeDados]

/-- C1: the benefit estimator.  On the source, `calcular_beneficio` returns an
absent result for the empty mapping, but for every non-empty mapping its list
comprehension evaluates the unbound name `contribs` and raises `NameError`
(modelled as `Except.error ()`), so the claimed behaviour never happens; on
the spec-modelled intended estimator, 12 distinct months of 1000.00 give
1412.00 (the minimum-wage floor) and 12 distinct months of 2000.00 give
2000.00, exactly as the claim states. -/
theorem claim_C1 :
    calcular_beneficio (contribsDoze 1000) 1412 = Except.error () ∧
    calcular_beneficio [] 1412 = Except.ok none ∧
    calcular_beneficio_spec (contribsDoze 1000) 1412 = some 1412 ∧
    calcular_beneficio_spec (contribsDoze 2000) 1412 = some 2000 :=
  ⟨rfl, rfl, by with_unfolding_all decide, by with_unfolding_all decide⟩

/-- C2: the approval scorer equals, for every record and occupation, the
claim's sum of indicator points (+2 threshold, +1 valid tax ID, +1 no missing
documents, +1 CLT, +0.5 MEI/Autônoma/Desempregada) mapped through the
half-open thresholds (< 2 Unlikely, < 3 Slightly-Unlikely, < 4 Likely, else
Very-Likely); in particular the spec scenarios score 5 and 4.5 give
Very-Likely, score 0 gives Unlikely, and score exactly 2 gives
Slightly-Unlikely. -/
theorem claim_C2 :
    (∀ (dados : Dados) (ocupacao : String),
      calcular_aprovacao dados ocupacao = tierClaim (scoreClaim dados ocupacao)) ∧
    scoreClaim dadosAltos ("CLT") = 5 ∧
    calcular_aprovacao dadosAltos ("CLT") = "Muito provável" ∧
    scoreClaim dadosAltosD ("Desempregada") = mkRat 9 2 ∧
    calcular_aprovacao dadosAltosD ("Desempregada") = "Muito provável" ∧
    scoreClaim dadosZero ("") = 0 ∧
    calcular_aprovacao dadosZero ("") = "Benefício Improvável" ∧
    scoreClaim dadosSo12 ("") = 2 ∧
    calcular_aprovacao dadosSo12 ("") = "Pouco provável" ∧
    tierClaim 2 = "Pouco provável" :=
  ⟨aprovacao_eq_tier,
   by with_unfolding_all decide, by with_unfolding_all decide,
   by with_unfolding_all decide, by with_unfolding_all decide,
   by with_unfolding_all decide, by with_unfolding_all decide,
   by with_unfolding_all decide, by with_unfolding_all decide,
   by with_unfolding_all decide⟩

/-- C3, counterexample: the claim as stated rejects only all-identical digits
and FEWER than 11 digits, and otherwise validates by the check-digit formula;
the 12-digit input `987654321000` satisfies that formula (both check digits of
`987654321` are 0), so the claim as stated validates it, while the source's
`validar_cpf` rejects every digit count other than 11 and returns false. -/
theorem claim_C3_counterexample :
    validar_cpf ("987654321000") = false ∧ validar_cpf_claim ("987654321000") = true := by
  decide

/-- C3, amended: with the rejection widened from "fewer than 11 digits" to "a
digit count different from 11", the validator is exactly the claim's
algorithm: the source function agrees with the amended claim-side definition
on every input string; every 11-digit all-identical string validates false;
and flipping either check digit of any valid digit string makes validation
false. -/
theorem claim_C3 :
    (∀ s : String, validar_cpf s = validar_cpf_amended s) ∧
    (∀ d : Fin 10,
      validar_cpf (String.mk (List.replicate 11 (Char.ofNat (48 + d.val)))) = false) ∧
    (∀ a0 a1 a2 a3 a4 a5 a6 a7 a8 a9 a10 x : Nat,
      validar_core [a0, a1, a2, a3, a4, a5, a6, a7, a8, a9, a10] = true → x ≠ a9 →
      validar_core [a0, a1, a2, a3, a4, a5, a6, a7, a8, x, a10] = false) ∧
    (∀ a0 a1 a2 a3 a4 a5 a6 a7 a8 a9 a10 x : Nat,
      validar_core [a0, a1, a2, a3, a4, a5, a6, a7, a8, a9, a10] = true → x ≠ a10 →
      validar_core [a0, a1, a2, a3, a4, a5, a6, a7, a8, a9, x] = false) :=
  ⟨fun s => core_eq_amended (digitsOf s), by decide, flip9, flip10⟩

/-- C3, witness: `11144477735` is a valid tax ID, and flipping its first check
digit (3 to 0) or its second check digit (5 to 9) makes validation false, by
the flip parts of the amended theorem. -/
theorem claim_C3_witness :
    validar_core [1, 1, 1, 4, 4, 4, 7, 7, 7, 3, 5] = true ∧
    validar_core [1, 1, 1, 4, 4, 4, 7, 7, 7, 0, 5] = false ∧
    validar_core [1, 1, 1, 4, 4, 4, 7, 7, 7, 3, 9] = false :=
  ⟨by decide,
   claim_C3.2.2.1 1 1 1 4 4 4 7 7 7 3 5 0 (by decide) (by decide),
   claim_C3.2.2.2 1 1 1 4 4 4 7 7 7 3 5 9 (by decide) (by decide)⟩

/-- C4: on the source, the applicant's tax ID is NOT kept from the first
name-bearing document that yields one: the identity document of `subC4`
yields the valid ID `111.444.777-35`, the later birth certificate yields the
truthy not-found sentinel, and because `if cpf:` is always true the sentinel
OVERWRITES the extracted ID — the final record carries `Não encontrado` with
`cpf_valido` recomputed to false. -/
theorem claim_C4 :
    extrair_cpf (docRg.texto) = "111.444.777-35" ∧
    validar_cpf ("111.444.777-35") = true ∧
    extrair_cpf (docCertidao.texto) = "Não encontrado" ∧
    (processar_documentos subC4 ("CLT") (fun _ => true)).toOption.map Relatorio.cpf =
      some (some ("Não encontrado")) ∧
    (processar_documentos subC4 ("CLT") (fun _ => true)).toOption.map Relatorio.cpf_valido =
      some (some false) :=
  ⟨by decide, by decide, by decide, by decide, by decide⟩

/-- C5: on the source, the missing-documents list is NOT the required set
minus the supplied set: in `subC5` all four required documents are supplied
and pass the quality gate, yet the report still lists RG, CERTIDAO and CNIS as
missing, because the aggregator never records those three keys (only `pis` and
`mei` are ever written into the aggregate). -/
theorem claim_C5 :
    validar_arquivo docRg = true ∧
    validar_arquivo docCertidao = true ∧
    validar_arquivo docCnis = true ∧
    validar_arquivo docPis = true ∧
    (processar_documentos subC5 ("CLT") (fun _ => true)).toOption.map
      Relatorio.informacoes_incompletas = some ["RG", "CERTIDAO", "CNIS"] :=
  ⟨by decide, by decide, by decide, by decide, by decide⟩

/-- C6: the contribution extractor equals the fold, over the pattern's
non-overlapping matches, of exactly the entries whose amount parses (each
rounded to 2 places) — so a match whose numeral fails to parse is skipped
without affecting the others; every extracted value is non-negative; and the
two concrete cases of the claim hold, with `"2023-05: 1.234,56"` giving the
value 1234.56. -/
theorem claim_C6 :
    (∀ t : String,
      extrair_contribuicoes t =
        (parsedEntries (scanContribs t.data)).foldl (fun m p => dictInsert m p.1 p.2) []) ∧
    (∀ t : String, (extrair_contribuicoes t).all (fun p => decide (0 ≤ p.2)) = true) ∧
    extrair_contribuicoes ("2023-05: 1.234,56") = [("2023-05", mkRat 123456 100)] ∧
    extrair_contribuicoes ("2023-04: 1,2,3 2023-05: 1.234,56") =
      [("2023-05", mkRat 123456 100)] ∧
    mkRat 123456 100 = 1234.56 :=
  ⟨fun t => fold_skip_eq (scanContribs t.data) [],
   extrair_contribuicoes_nonneg, by decide, by decide,
   by rw [Rat.mkRat_eq_div]; norm_num⟩

/-- C7: the tax-ID extractor returns the leftmost punctuated match when one
exists, otherwise reformats the leftmost bare 11-digit run, otherwise the
not-found sentinel; the punctuated pattern takes priority even when a bare run
occurs earlier in the text. -/
theorem claim_C7 :
    (∀ (t : String) (m : List Char),
      findPunct t.data = some m → extrair_cpf t = String.mk m) ∧
    (∀ (t : String) (ds : List Char), findPunct t.data = none →
      findBare11 t.data = some ds → extrair_cpf t = formatCpf ds) ∧
    (∀ t : String, findPunct t.data = none → findBare11 t.data = none →
      extrair_cpf t = "Não encontrado") ∧
    extrair_cpf ("12345678901 111.444.777-35") = "111.444.777-35" ∧
    extrair_cpf ("cpf 12345678901") = "123.456.789-01" ∧
    extrair_cpf ("sem numero") = "Não encontrado" :=
  ⟨extrair_cpf_punct, extrair_cpf_bare, extrair_cpf_sentinel,
   by decide, by decide, by decide⟩

/-- C7, witness: the three cases applied at concrete texts — a punctuated
match, a bare 11-digit fallback, and the sentinel. -/
theorem claim_C7_witness :
    extrair_cpf ("x111.444.777-35") = String.mk (("111.444.777-35").data) ∧
    extrair_cpf ("cpf 12345678901x") = formatCpf (("12345678901").data) ∧
    extrair_cpf ("abc") = "Não encontrado" :=
  ⟨claim_C7.1 ("x111.444.777-35") (("111.444.777-35").data) (by decide),
   claim_C7.2.1 ("cpf 12345678901x") (("12345678901").data) (by decide) (by decide),
   claim_C7.2.2.1 ("abc") (by decide) (by decide)⟩

/-- C8: the name-consistency flag is `OK` exactly when at most one distinct
value remains after lower-casing and deduplicating the extracted names that
are non-empty and not the sentinel; every successful pipeline run stores
exactly that flag for its processed documents; and the claim's two concrete
cases hold (`Maria Silva` with `maria silva` is consistent, `Maria Silva`
with `Ana Souza` is not). -/
theorem claim_C8 :
    (∀ docs : List InfoDoc,
      calcInconsistencia docs = "OK" ↔ (nomesFiltrados docs).dedup.length ≤ 1) ∧
    (∀ (sub : Submission) (oc : String) (fs : Campo → Bool) (d : Dados),
      (montar_dados sub oc fs).toOption = some d →
      d.inconsistencia_nomes = some (calcInconsistencia d.documentos)) ∧
    calcInconsistencia [infoMariaRg, infoMariaCert] = "OK" ∧
    calcInconsistencia [infoMariaRg, infoAna] =
      "Inconsistência nos nomes extraídos. Verifique manualmente." :=
  ⟨inconsistencia_iff, montar_inconsistencia, by decide, by decide⟩

/-- C8, witness: the pipeline on the empty submission succeeds with the
aggregate `dadosVazio`, whose stored flag is the one computed from its (empty)
processed-documents list. -/
theorem claim_C8_witness :
    (montar_dados subVazia ("CLT") (fun _ => true)).toOption = some dadosVazio ∧
    dadosVazio.inconsistencia_nomes = some (calcInconsistencia dadosVazio.documentos) :=
  ⟨by decide, claim_C8.2.1 subVazia ("CLT") (fun _ => true) dadosVazio (by decide)⟩

/-- C9: the pipeline is deterministic in its inputs: the report depends only
on the submitted documents (with their extracted texts and gate outcomes) and
the declared occupation — in particular it does not depend on the external
`os.rename` outcomes, the only side-effecting collaborator invoked during the
fold, modelled here as the `fs` argument. -/
theorem claim_C9 :
    ∀ (sub : Submission) (oc : String) (fs1 fs2 : Campo → Bool),
      processar_documentos sub oc fs1 = processar_documentos sub oc fs2 :=
  fun _ _ _ _ => rfl

/-- C10: the validator returns false for every input whose stripped digit
count differs from 11 in either direction, a strictly stronger guard than
rejecting only fewer than 11 digits. -/
theorem claim_C10 (s : String) (h : (digitsOf s).length ≠ 11) : validar_cpf s = false := by
  simp [validar_cpf, validar_core, h]

/-- C10, witness: a 12-digit input is rejected. -/
theorem claim_C10_witness :
    (digitsOf ("123456789012")).length ≠ 11 ∧ validar_cpf ("123456789012") = false :=
  ⟨by decide, claim_C10 ("123456789012") (by decide)⟩
